import Mathlib

/-!
Shallow embedding of the DeutscherBot repository (src/main.py and
src/exceptions.py) and proofs about its behaviour.

Python strings holding irregular HTML are represented by the fragment
sequence that the external tokenizer (lxml fragments_fromstring) produces
from them: a list of plain-text runs, tagged elements with a class
attribute and nested children, and other node kinds (for example HTML
comments) that the code does not recognize.  The tokenizer itself is an
external library and is not part of this repository; the functions of
src/main.py are modelled directly over its output.

Exceptions are modelled by an explicit error type and Except; the Python
exception classes of src/exceptions.py are its constructors, together with
the built-in KeyError, IndexError and AttributeError that the code can
raise through direct dict indexing, list indexing and attribute access.
-/

namespace DBot

/-- Fragment of parsed markup: a plain-text run, a tagged element carrying
an optional class attribute and nested children, or some other node kind
(carrying its printed form and the printed form of its Python type). -/
inductive Frag where
  | text (s : String)
  | elem (cls : Option String) (children : List Frag)
  | other (descr ty : String)
deriving Repr

/-- Errors raised by the embedded code: the exception classes of
src/exceptions.py plus the Python built-ins the code can raise. -/
inductive Err where
  | deutscherBotException (msg : String)
  | couldNotGetText (msg : String)
  | searchError (msg : Option String)
  | translationException (msg : String)
  | keyError (key : String)
  | indexError
  | attributeError (msg : String)
deriving Repr, DecidableEq

mutual

/-- Flattened text content of a fragment, as lxml text_content: all text
runs of the element and of its descendants, in document order. -/
def textContent : Frag → String
  | .text s => s
  | .elem _ children => textContentList children
  | .other _ _ => ""

/-- Flattened text content of a list of fragments. -/
def textContentList : List Frag → String
  | [] => ""
  | f :: fs => textContent f ++ textContentList fs

end

/-- Markdown helper bold of src/main.py. -/
def bold (astr : String) : String := "**" ++ astr ++ "**"

/-- Markdown helper italics of src/main.py. -/
def italics (astr : String) : String := "*" ++ astr ++ "*"

/-- Markdown helper parenthesis of src/main.py. -/
def parenthesis (astr : String) : String := "(" ++ astr ++ ")"

/-- Markdown helper script of src/main.py. -/
def script (astr : String) : String := "^" ++ astr

/-- Markdown link helper format_link of src/main.py. -/
def formatLink (visibleName url : String) : String :=
  "[" ++ visibleName ++ "](" ++ url ++ ")"

/-- Embedding of get_text_from_irregular_string over the parsed fragment
sequence: plain-text runs are appended verbatim, recognized elements
contribute their flattened text content wrapped in italics then in
parentheses, and any other fragment raises CouldNotGetText. -/
def getTextFromIrregularString (stringPieces : List Frag) : Except Err String :=
  go stringPieces ""
where
  /-- Accumulating loop of get_text_from_irregular_string. -/
  go : List Frag → String → Except Err String
    | [], text => .ok text
    | .text s :: rest, text => go rest (text ++ s)
    | .elem _ children :: rest, text =>
        go rest (text ++ parenthesis (italics (textContentList children)))
    | .other descr ty :: _, _ =>
        .error (.couldNotGetText ("No method to extract text from " ++ descr ++
          " of type " ++ ty ++ " to string"))

/-- Embedding of get_word_metadata over the parsed fragment sequence of the
headword_full string: the leading fragment is dropped, and each remaining
element inserts its class attribute mapped to its flattened text content
into the dict unless that key is already present (first write wins).  The
dict is modelled as an association list in insertion order.  A remaining
fragment that is a plain string has no get method, so Python raises
AttributeError there; other unrecognized node kinds do not occur in
headword blocks and are modelled the same way. -/
def getWordMetadata (fullword : List Frag) : Except Err (List (Option String × String)) :=
  go (fullword.drop 1) []
where
  /-- Loop of get_word_metadata building the metadata dict. -/
  go : List Frag → List (Option String × String) → Except Err (List (Option String × String))
    | [], metadata => .ok metadata
    | .elem cls children :: rest, metadata =>
        if (metadata.find? (fun p => p.1 = cls)).isSome then
          go rest metadata
        else
          go rest (metadata ++ [(cls, textContentList children)])
    | .text _ :: _, _ => .error (.attributeError "str object has no attribute get")
    | .other _ _ :: _, _ => .error (.attributeError "object has no attribute get")

/-- Lookup in a dict modelled as an association list: the first binding of
the key, if any. -/
def lookupA (metadata : List (Option String × String)) (key : Option String) : Option String :=
  (metadata.find? (fun p => p.1 = key)).map (fun p => p.2)

/-- Embedding of get_target_text: the regular expression in the source
removes every well-formed HTML tag from the raw string, which on a parsed
fragment sequence leaves exactly the flattened text content. -/
def getTargetText (astr : List Frag) : String := textContentList astr

/-- Python str.split with no separator, on the character list: maximal
runs of non-whitespace characters; whitespace runs separate tokens and
are discarded; the second argument accumulates the current token in
reverse. -/
def pySplitGo : List Char → List Char → List String
  | [], [] => []
  | [], cur => [String.mk cur.reverse]
  | c :: cs, cur =>
    if c.isWhitespace then
      match cur with
      | [] => pySplitGo cs []
      | _ :: _ => String.mk cur.reverse :: pySplitGo cs []
    else
      pySplitGo cs (c :: cur)

/-- Python str.split with no separator. -/
def pySplit (s : String) : List String := pySplitGo s.data []

/-- Python str.strip with no argument: surrounding whitespace removed. -/
def pyStrip (s : String) : String :=
  String.mk (((s.data.dropWhile Char.isWhitespace).reverse.dropWhile
    Char.isWhitespace).reverse)

/-- Python str.replace on character lists: every non-overlapping
occurrence of the pattern, scanned left to right, becomes the
replacement; when the pattern does not start at the current position the
scan advances one character.  The fuel, instantiated with the length of
the string, only bounds the recursion; for a non-empty pattern each step
consumes at least one character, so the fuel is never exhausted. -/
def pyReplaceGo (pat rep : List Char) : Nat → List Char → List Char
  | _, [] => []
  | 0, s => s
  | fuel + 1, c :: cs =>
    if pat.isPrefixOf (c :: cs) then
      rep ++ pyReplaceGo pat rep fuel (List.drop pat.length (c :: cs))
    else
      c :: pyReplaceGo pat rep fuel cs

/-- Python str.replace for a non-empty pattern, the only shape the code
uses (the single call site replaces the two-character syllable
separator). -/
def pyReplace (s pat rep : String) : String :=
  String.mk (pyReplaceGo pat.data rep.data s.data.length s.data)

/-- Embedding of the STATUS_TO_REASON dict of src/main.py, keys as written
there: five integer status codes and the key None. -/
def STATUS_TO_REASON : List (Option Nat × String) :=
  [(some 200, "Request successful"),
   (some 204, "No results could be found for the given word"),
   (some 404, "The dictionary does not exist"),
   (some 403, "Supplied credentials could not be verified, or access to dictionary denied"),
   (some 500, "A server error has occurred"),
   (none, "Unknown error (sorry)")]

/-- Python dict get with default None, applied to STATUS_TO_REASON. -/
def statusToReasonGet (status : Option Nat) : Option String :=
  (STATUS_TO_REASON.find? (fun p => p.1 = status)).map (fun p => p.2)

/-- Translation object of the Pons payload: source and target strings of
embedded HTML, represented by their parsed fragment sequences. -/
structure Translation where
  source : List Frag
  target : List Frag
deriving Repr

/-- Arab object of the Pons payload: a header and a translations list. -/
structure Arab where
  header : String
  translations : List Translation
deriving Repr

/-- Rom object of the Pons payload: headword, optional wordclass, the
headword_full markup (as its parsed fragment sequence) and the arabs. -/
structure Rom where
  headword : String
  wordclass : Option String
  headword_full : List Frag
  arabs : List Arab
deriving Repr

/-- Hit object of the Pons payload: a result type tag and the roms. -/
structure Hit where
  type : String
  roms : List Rom
deriving Repr

/-- First element of the JSON body returned by the Pons API: its hits. -/
structure ApiResult where
  hits : List Hit
deriving Repr

/-- HTTP response of the Pons API: a status code and the JSON body, a list
whose elements are ApiResult objects. -/
structure PonsResponse where
  status : Nat
  body : List ApiResult
deriving Repr

/-- Embedding of Pons.search given the HTTP response: on status 200 the
first element of the JSON body is returned (IndexError when the body is
empty), otherwise SearchError carrying STATUS_TO_REASON.get(status). -/
def ponsSearch (response : PonsResponse) : Except Err ApiResult :=
  if response.status = 200 then
    match response.body.head? with
    | some r => .ok r
    | none => .error .indexError
  else
    .error (.searchError (statusToReasonGet (some response.status)))

/-- Gender step of search_word, line for line: a direct keyed access into
the metadata dict when the wordclass is noun (KeyError when the genus key
is absent), and None otherwise. -/
def genderOf (wordclass : Option String)
    (wordMetadata : List (Option String × String)) : Except Err (Option String) :=
  if wordclass = some "noun" then
    match lookupA wordMetadata (some "genus") with
    | some g => .ok (some g)
    | none => .error (.keyError "genus")
  else
    .ok none

/-- Embedding of get_example: the first arab whose header is Phrases:, if
any, yields its first translation, with the source extracted through
get_text_from_irregular_string and the target through get_target_text. -/
def getExample (adefinition : Rom) : Except Err (Option (String × String)) :=
  match adefinition.arabs.filter (fun entry => entry.header == "Phrases:") with
  | [] => .ok none
  | phrase :: _ =>
    match phrase.translations.head? with
    | none => .error .indexError
    | some t =>
      match getTextFromIrregularString t.source with
      | .error e => .error e
      | .ok source => .ok (some (source, getTargetText t.target))

/-- Result dict built by search_word: optional fields are the keys that
the code only sets conditionally. -/
structure SearchResult where
  word : String
  word_type : Option String
  metadata : List (Option String × String)
  gender : Option String
  translation : Option String
  «example» : Option (String × String)
deriving Repr, DecidableEq

/-- Python conditional assignment if x: d[k] = x for an optional string:
the key is absent when the value is None or the empty string (falsy). -/
def pyTruthyOpt : Option String → Option String
  | some s => if s = "" then none else some s
  | none => none

/-- Embedding of search_word parametrized by the remote API, modelled as a
function from the searched word to the HTTP response.  SearchError from
Pons.search is converted to DeutscherBotException; every other failure
propagates unchanged.  Note the syllable separator removed from the
headword is the two-character string of the source file bytes. -/
def searchWord (api : String → PonsResponse) (sWord : String) : Except Err SearchResult :=
  match ponsSearch (api sWord) with
  | .error (.searchError _) => .error (.deutscherBotException ("Error searching " ++ sWord))
  | .error e => .error e
  | .ok result =>
    match result.hits.head? with
    | none => .error .indexError
    | some hit =>
      if hit.type = "entry" then
        match hit.roms.head? with
        | none => .error .indexError
        | some definition =>
          let word := pyReplace definition.headword "¬∑" ""
          let wordclass := definition.wordclass
          match getWordMetadata definition.headword_full with
          | .error e => .error e
          | .ok wordMetadata =>
            match genderOf wordclass wordMetadata with
            | .error e => .error e
            | .ok gender =>
              match definition.arabs.head? with
              | none => .error .indexError
              | some arab0 =>
                match arab0.translations.head? with
                | none => .error .indexError
                | some translation0 =>
                  match getTextFromIrregularString translation0.target with
                  | .error e => .error e
                  | .ok translationText =>
                    match getExample definition with
                    | .error e => .error e
                    | .ok anExample =>
                      .ok ⟨word, pyTruthyOpt wordclass, wordMetadata,
                           pyTruthyOpt gender, some translationText, anExample⟩
      else
        .error (.translationException "Translations are not yet supported")

/-- Embedding of the LETTER_TO_ARTICLE_MAPPER dict. -/
def LETTER_TO_ARTICLE_MAPPER : List (String × String) :=
  [("nt", "das"), ("m", "der"), ("f", "die")]

/-- Article resolution of prepare_comment: indexing the mapper with
word_result.get of gender defaulted to the empty string, with the KeyError
handler yielding the empty article. -/
def articleFor (gender : Option String) : String :=
  match (LETTER_TO_ARTICLE_MAPPER.find? (fun p => p.1 = gender.getD "")).map (fun p => p.2) with
  | some article => article
  | none => ""

/-- Python str.title on a character list: a cased character not preceded
by a cased character is uppercased, every other cased character is
lowercased. -/
def pyTitleGo : Bool → List Char → List Char
  | _, [] => []
  | prevAlpha, c :: cs =>
    if c.isAlpha then
      (if prevAlpha then c.toLower else c.toUpper) :: pyTitleGo true cs
    else
      c :: pyTitleGo false cs

/-- Python str.title. -/
def pyTitle (s : String) : String := String.mk (pyTitleGo false s.data)

/-- Embedding of BREAK_LINE. -/
def BREAK_LINE : String := "\n\n"

/-- Embedding of BLANK_LINE. -/
def BLANK_LINE : String := BREAK_LINE ++ "&nbsp;" ++ BREAK_LINE

/-- Embedding of Pons.SEARCH_URL instantiated at a word. -/
def SEARCH_URL (word : String) : String :=
  "https://en.pons.com/translate?q=" ++ word ++ "&l=deen&in=de&language=en"

/-- Embedding of COMMENT_TEMPLATE.format: the literal runs between the
placeholders are the exact character sequences of the source file (the
flag-emoji runs appear there in a double-encoded form, reproduced here by
unicode escapes byte for byte). -/
def COMMENT_TEMPLATE (articleAndWord phonetics wordType word translation sourceLink : String) : String :=
  articleAndWord ++ " " ++ phonetics ++ " | " ++ wordType ++ BLANK_LINE ++
  "üá©üá™ " ++ word ++
  " üîÅ üá¨üáß " ++ translation ++
  BLANK_LINE ++ sourceLink

/-- Embedding of prepare_comment.  The article is resolved first; a None
word_type fails with AttributeError (None.title()); a missing translation
key fails with KeyError; otherwise the template is instantiated.  The
expression italics(word_type) or None renders as the string None when the
italics result is falsy, as Python str.format would print it. -/
def prepareComment (wordResult : SearchResult) : Except Err String :=
  let article := articleFor wordResult.gender
  let word := wordResult.word
  let wordWArticle := if article = "" then word else article ++ " " ++ word
  match wordResult.word_type with
  | none => .error (.attributeError "NoneType object has no attribute title")
  | some wt =>
    let wordType := italics (pyTitle wt)
    let phonetics := (lookupA wordResult.metadata (some "phonetics")).getD ""
    match wordResult.translation with
    | none => .error (.keyError "translation")
    | some translation =>
      let source := script (formatLink "PONS-reference" (SEARCH_URL word))
      .ok (COMMENT_TEMPLATE (bold wordWArticle) phonetics
        (if wordType = "" then "None" else wordType) word translation source)

/-- Reddit post as scan_posts consumes it: identifier, title and url. -/
structure Post where
  id : String
  title : String
  url : String
deriving Repr

/-- Row of the posts table, the columns of the CREATE TABLE statement. -/
structure LedgerRow where
  post_id : String
  link : String
  word : String
  translation : String
  raw_result : SearchResult
  date : Nat
  subreddit : String
deriving Repr

/-- Reply posted back to the forum: the post replied to and the body. -/
structure Reply where
  post_id : String
  body : String
deriving Repr

/-- Observable state of the pipeline: the rows of the posts table and the
replies submitted to the forum so far. -/
structure BotState where
  ledger : List LedgerRow
  replies : List Reply
deriving Repr

/-- Embedding of the SQL of visited_db.  The subquery SELECT 1 FROM posts
WHERE post_id = ? is uncorrelated with the outer query, so the outer WHERE
EXISTS condition is the same for every outer row: the filter keeps either
every row of the table or none. -/
def visitedRows (rows : List LedgerRow) (postId : String) : List LedgerRow :=
  rows.filter (fun _ => rows.any (fun r => r.post_id == postId))

/-- Embedding of visited_db: fetchone on the rows the query returns,
converted to a boolean. -/
def visited_db (rows : List LedgerRow) (postId : String) : Bool :=
  (visitedRows rows postId).head?.isSome

/-- Embedding of _get_word_to_search: the last whitespace-delimited token
of the title, stripped.  Indexing words[-1] on an empty list raises
IndexError. -/
def getWordToSearch (post : Post) : Except Err String :=
  match (pySplit post.title).getLast? with
  | none => .error .indexError
  | some w => .ok (pyStrip w)

/-- Embedding of add_to_db: inserting the row built from the post and the
word details.  A word_details dict without the translation key raises
KeyError at the direct indexing. -/
def addToDb (s : BotState) (post : Post) (wordDetails : SearchResult)
    (now : Nat) (subreddit : String) : Except Err BotState :=
  match wordDetails.translation with
  | none => .error (.keyError "translation")
  | some translation =>
    .ok ⟨s.ledger ++ [⟨post.id, post.url, wordDetails.word, translation,
                       wordDetails, now, subreddit⟩], s.replies⟩

/-- Body of the unvisited branch of the scan_posts loop for one post:
extract the word, search it, prepare the comment, submit the reply, then
insert the ledger row.  No exception is caught here; an error is returned
together with the state at the moment it was raised (a reply already
submitted stays submitted). -/
def processPost (api : String → PonsResponse) (subreddit : String) (now : Nat)
    (s : BotState) (post : Post) : Except (Err × BotState) BotState :=
  match getWordToSearch post with
  | .error e => .error (e, s)
  | .ok word =>
    match searchWord api word with
    | .error e => .error (e, s)
    | .ok wordDetails =>
      match prepareComment wordDetails with
      | .error e => .error (e, s)
      | .ok definition =>
        let s1 : BotState := ⟨s.ledger, s.replies ++ [⟨post.id, definition⟩]⟩
        match addToDb s1 post wordDetails now subreddit with
        | .error e => .error (e, s1)
        | .ok s2 => .ok s2

/-- Embedding of the scan_posts loop over the fetched posts: a visited
post is skipped, an unvisited post is processed, and an uncaught exception
aborts the whole run with the state it left behind. -/
def scanPosts (api : String → PonsResponse) (subreddit : String) (now : Nat)
    (s : BotState) : List Post → Except (Err × BotState) BotState
  | [] => .ok s
  | post :: rest =>
    if visited_db s.ledger post.id then
      scanPosts api subreddit now s rest
    else
      match processPost api subreddit now s post with
      | .ok s1 => scanPosts api subreddit now s1 rest
      | .error es => .error es

/-- State left behind by a run, whether it completed or aborted. -/
def finalState : Except (Err × BotState) BotState → BotState
  | .ok s => s
  | .error (_, s) => s

/-- Number of replies submitted to a given post identifier. -/
def repliesTo (s : BotState) (postId : String) : Nat :=
  (s.replies.filter (fun r => r.post_id == postId)).length

/-- Modelled from the spec: the annotated-text rendering of section 4.2 of
the specification — plain-text runs copied verbatim and concatenated in
document order, each tagged element contributing its full flattened text
content wrapped first in italics then in parentheses.  Used to compare
get_text_from_irregular_string against the specified rendering; fragments
the specification declares failing are rendered as nothing here and are
excluded by hypothesis where this definition is used. -/
def annotatedTextSpec (frags : List Frag) : String :=
  match frags with
  | [] => ""
  | .text s :: rest => s ++ annotatedTextSpec rest
  | .elem _ children :: rest =>
      parenthesis (italics (textContentList children)) ++ annotatedTextSpec rest
  | .other _ _ :: rest => annotatedTextSpec rest

/-- Modelled from the spec and the worked example in the source docstring:
the fragment sequence the tokenizer produces from the input string of the
annotated-text round-trip property, Hallo followed by a span element whose
class is x and whose content is Welt. -/
def halloWeltFrags : List Frag :=
  [.text "Hallo ", .elem (some "x") [.text "Welt"]]

/-- Fragment kinds get_text_from_irregular_string recognizes: plain-text
runs and tagged elements. -/
def recognizedFrag : Frag → Bool
  | .other _ _ => false
  | _ => true

/-- Tagged-element pairs of a fragment sequence in document order: the
class attribute of each element paired with its flattened text content. -/
def elemPairs : List Frag → List (Option String × String)
  | [] => []
  | .elem cls children :: rest => (cls, textContentList children) :: elemPairs rest
  | .text _ :: rest => elemPairs rest
  | .other _ _ :: rest => elemPairs rest

/-- First-of-two combinator on optional values, spelling out the Python
dict-priority used in the metadata lemmas. -/
def firstSome (a b : Option String) : Option String :=
  match a with
  | some v => some v
  | none => b

/-- Headword-block fragments with a duplicated phon class label, the
leading plain-text run being the bare headword. -/
def cexMetaFrags : List Frag :=
  [.text "Kopf", .elem (some "phon") [.text "A"], .elem (some "phon") [.text "B"]]

/-- Fragment sequence holding a node of an unrecognized kind. -/
def cexBadFrags : List Frag :=
  [.text "Hallo ", .other "Comment" "class lxml.html.HtmlComment"]

/-- Post whose dictionary lookup fails in the counterexample run. -/
def cexPostFail : Post := ⟨"p1", "Word of the hour: Wort", "u1"⟩

/-- Post whose dictionary lookup succeeds in the counterexample run. -/
def cexPostOk : Post := ⟨"p2", "Word of the hour: Haus", "u2"⟩

/-- Successful dictionary rom for the word Haus: a noun with a genus
element in its headword block and one translation. -/
def cexRom : Rom :=
  ⟨"Haus", some "noun", [.text "Haus", .elem (some "genus") [.text "nt"]],
   [⟨"h", [⟨[.text "Haus"], [.text "house"]⟩]⟩]⟩

/-- Remote API of the counterexample run: Haus resolves to a full entry,
every other word gets the no-results status 204. -/
def cexApi : String → PonsResponse := fun w =>
  if w = "Haus" then ⟨200, [⟨[⟨"entry", [cexRom]⟩]⟩]⟩ else ⟨204, []⟩

/-- Remote API whose first hit is a machine translation, not an entry. -/
def c8Api : String → PonsResponse := fun _ => ⟨200, [⟨[⟨"translation", []⟩]⟩]⟩

/-- Post used against the translation-result API. -/
def c8Post : Post := ⟨"p3", "Word of the hour: Gehen", "u3"⟩

/-- Remote API returning a noun entry whose headword block carries no
genus element. -/
def c10Api : String → PonsResponse := fun _ =>
  ⟨200, [⟨[⟨"entry", [⟨"Haus", some "noun", [.text "Haus"], []⟩]⟩]⟩]⟩

theorem italics_ne_empty (s : String) : italics s ≠ "" := by
  intro h
  have hl := congrArg String.length h
  simp [italics, String.length_append] at hl
  exact absurd hl.1.1 (by decide)

theorem visited_db_eq_any (rows : List LedgerRow) (postId : String) :
    visited_db rows postId = rows.any (fun r => r.post_id == postId) := by
  unfold visited_db visitedRows
  cases hb : rows.any (fun r => r.post_id == postId) with
  | false => simp [hb]
  | true =>
    cases rows with
    | nil => simp at hb
    | cons r rs => simp [hb]

theorem getText_go_ok (frags : List Frag) (acc : String) (h : frags.all recognizedFrag) :
    getTextFromIrregularString.go frags acc = .ok (acc ++ annotatedTextSpec frags) := by
  induction frags generalizing acc with
  | nil => simp [getTextFromIrregularString.go, annotatedTextSpec]
  | cons f rest ih =>
    simp only [List.all_cons, Bool.and_eq_true] at h
    cases f with
    | text s =>
      rw [show getTextFromIrregularString.go (Frag.text s :: rest) acc =
            getTextFromIrregularString.go rest (acc ++ s) from rfl,
          ih _ h.2,
          show annotatedTextSpec (Frag.text s :: rest) = s ++ annotatedTextSpec rest from rfl,
          String.append_assoc]
    | elem cls children =>
      rw [show getTextFromIrregularString.go (Frag.elem cls children :: rest) acc =
            getTextFromIrregularString.go
              (rest) (acc ++ parenthesis (italics (textContentList children))) from rfl,
          ih _ h.2,
          show annotatedTextSpec (Frag.elem cls children :: rest) =
            parenthesis (italics (textContentList children)) ++ annotatedTextSpec rest from rfl,
          String.append_assoc]
    | other descr ty => simp [recognizedFrag] at h

theorem getText_go_err (frags : List Frag) (acc : String)
    (h : frags.any (fun f => !recognizedFrag f)) :
    ∃ descr ty, Frag.other descr ty ∈ frags ∧
      getTextFromIrregularString.go frags acc =
        .error (.couldNotGetText ("No method to extract text from " ++ descr ++
          " of type " ++ ty ++ " to string")) := by
  induction frags generalizing acc with
  | nil => simp at h
  | cons f rest ih =>
    cases f with
    | text s =>
      simp only [List.any_cons, recognizedFrag, Bool.not_true, Bool.false_or] at h
      obtain ⟨descr, ty, hmem, hgo⟩ := ih (acc ++ s) h
      exact ⟨descr, ty, List.mem_cons_of_mem _ hmem, hgo⟩
    | elem cls children =>
      simp only [List.any_cons, recognizedFrag, Bool.not_true, Bool.false_or] at h
      obtain ⟨descr, ty, hmem, hgo⟩ :=
        ih (acc ++ parenthesis (italics (textContentList children))) h
      exact ⟨descr, ty, List.mem_cons_of_mem _ hmem, hgo⟩
    | other descr ty =>
      exact ⟨descr, ty, List.mem_cons_self _ _, rfl⟩

theorem find?_append_first (l1 l2 : List (Option String × String)) (k : Option String) :
    lookupA (l1 ++ l2) k = firstSome (lookupA l1 k) (lookupA l2 k) := by
  induction l1 with
  | nil => simp [lookupA, firstSome]
  | cons p rest ih =>
    by_cases hk : p.1 = k
    · simp [lookupA, List.find?_cons, hk, firstSome]
    · simp only [List.cons_append]
      simp [lookupA, List.find?_cons, hk] at ih ⊢
      exact ih

theorem getWordMetadata_go_lookup (frags : List Frag) (acc m : List (Option String × String))
    (k : Option String) (h : getWordMetadata.go frags acc = .ok m) :
    lookupA m k =
      firstSome (lookupA acc k)
        (((elemPairs frags).find? (fun p => p.1 = k)).map (fun p => p.2)) := by
  induction frags generalizing acc with
  | nil =>
    simp only [getWordMetadata.go, Except.ok.injEq] at h
    subst h
    cases hl : lookupA acc k <;> simp [firstSome, elemPairs, hl, lookupA]
  | cons f rest ih =>
    cases f with
    | text s => simp [getWordMetadata.go] at h
    | other descr ty => simp [getWordMetadata.go] at h
    | elem cls children =>
      rw [show getWordMetadata.go (Frag.elem cls children :: rest) acc =
            (if ((acc.find? (fun p => p.1 = cls)).isSome : Bool) then
              getWordMetadata.go rest acc
            else
              getWordMetadata.go rest (acc ++ [(cls, textContentList children)])) from rfl] at h
      by_cases hc : (acc.find? (fun p => p.1 = cls)).isSome
      · rw [if_pos hc] at h
        rw [ih _ h]
        by_cases hk : k = cls
        · subst hk
          obtain ⟨p, hp⟩ := Option.isSome_iff_exists.mp hc
          simp [lookupA, hp, firstSome]
        · have hskip : (elemPairs (Frag.elem cls children :: rest)).find? (fun p => p.1 = k) =
              (elemPairs rest).find? (fun p => p.1 = k) := by
            simp only [elemPairs]
            rw [List.find?_cons, decide_eq_false (fun h2 : cls = k => hk h2.symm)]
          rw [hskip]
      · rw [if_neg hc] at h
        rw [ih _ h, find?_append_first]
        by_cases hk : k = cls
        · subst hk
          have hnone : lookupA acc k = none := by
            simp only [lookupA]
            rw [Option.not_isSome_iff_eq_none.mp hc]
            rfl
          have hself : lookupA [(k, textContentList children)] k =
              some (textContentList children) := by
            simp only [lookupA]
            rw [List.find?_cons, decide_eq_true rfl]
            rfl
          have hhead : (elemPairs (Frag.elem k children :: rest)).find? (fun p => p.1 = k) =
              some (k, textContentList children) := by
            simp only [elemPairs]
            rw [List.find?_cons, decide_eq_true rfl]
          rw [hnone, hself, hhead]
          simp [firstSome]
        · have h1 : lookupA [(cls, textContentList children)] k = none := by
            simp only [lookupA, List.find?_cons,
              decide_eq_false (fun h2 : cls = k => hk h2.symm)]
            rfl
          have h2 : (elemPairs (Frag.elem cls children :: rest)).find? (fun p => p.1 = k) =
              (elemPairs rest).find? (fun p => p.1 = k) := by
            simp only [elemPairs]
            rw [List.find?_cons, decide_eq_false (fun h2 : cls = k => hk h2.symm)]
          rw [h1, h2]
          cases hl : lookupA acc k <;> simp [firstSome]

/-- Ledger row recording that post p2 was already replied to. -/
def cexRowP2 : LedgerRow :=
  ⟨"p2", "u2", "Haus", "house",
   ⟨"Haus", some "noun", [], some "nt", some "house", none⟩, 0, "Sprache"⟩

theorem prepareComment_ok_translation (wd : SearchResult) (d : String)
    (h : prepareComment wd = .ok d) : wd.translation.isSome := by
  unfold prepareComment at h
  cases hwt : wd.word_type with
  | none => rw [hwt] at h; simp at h
  | some wt =>
    rw [hwt] at h
    cases htr : wd.translation with
    | none => rw [htr] at h; simp at h
    | some tr => simp

theorem processPost_cases (api : String → PonsResponse) (subreddit : String) (now : Nat)
    (s : BotState) (post : Post) :
    (∃ e, processPost api subreddit now s post = .error (e, s)) ∨
    (∃ body row, row.post_id = post.id ∧
      processPost api subreddit now s post =
        .ok ⟨s.ledger ++ [row], s.replies ++ [⟨post.id, body⟩]⟩) := by
  cases hgw : getWordToSearch post with
  | error e => exact .inl ⟨e, by simp [processPost, hgw]⟩
  | ok word =>
    cases hsw : searchWord api word with
    | error e => exact .inl ⟨e, by simp [processPost, hgw, hsw]⟩
    | ok wd =>
      cases hpc : prepareComment wd with
      | error e => exact .inl ⟨e, by simp [processPost, hgw, hsw, hpc]⟩
      | ok defn =>
        have hts := prepareComment_ok_translation wd defn hpc
        cases htr : wd.translation with
        | none => rw [htr] at hts; simp at hts
        | some tr =>
          refine .inr ⟨defn, ⟨post.id, post.url, wd.word, tr, wd, now, subreddit⟩, rfl, ?_⟩
          simp [processPost, hgw, hsw, hpc, addToDb, htr]

/-- C9: visited_db returns true exactly when the posts table contains a
row whose post_id equals the given identifier; the uncorrelated EXISTS
subquery yields neither false positives on a non-empty table without a
matching row nor false negatives when a matching row exists. -/
theorem visited_db_membership_exact (rows : List LedgerRow) (postId : String) :
    visited_db rows postId = true ↔ ∃ r ∈ rows, r.post_id = postId := by
  rw [visited_db_eq_any, List.any_eq_true]
  constructor
  · rintro ⟨r, hr, hb⟩
    exact ⟨r, hr, by simpa using hb⟩
  · rintro ⟨r, hr, hb⟩
    exact ⟨r, hr, by simpa using hb⟩

/-- C4: the known statuses map to their fixed reasons and status 200 with
a non-empty body succeeds, but an unmapped status (here 418) makes
STATUS_TO_REASON.get return None, so SearchError carries the reason None:
the Unknown-error fallback string is stored under the key None, which an
integer status never equals, and is therefore unreachable — contradicting
the documented intent of that dict entry. -/
theorem ponsSearch_status_mapping :
    statusToReasonGet (some 204) = some "No results could be found for the given word" ∧
    statusToReasonGet (some 403) =
      some "Supplied credentials could not be verified, or access to dictionary denied" ∧
    statusToReasonGet (some 404) = some "The dictionary does not exist" ∧
    statusToReasonGet (some 500) = some "A server error has occurred" ∧
    statusToReasonGet (some 418) = none ∧
    ponsSearch ⟨418, [⟨[]⟩]⟩ = .error (.searchError none) ∧
    ponsSearch ⟨204, [⟨[]⟩]⟩ =
      .error (.searchError (some "No results could be found for the given word")) ∧
    ponsSearch ⟨200, [⟨[]⟩]⟩ = .ok ⟨[]⟩ :=
  ⟨rfl, rfl, rfl, rfl, rfl, rfl, rfl, rfl⟩

/-- C3: on a fragment sequence of plain-text runs and recognized tagged
elements only, get_text_from_irregular_string returns the document-order
concatenation in which text runs are copied verbatim and each tagged
element contributes its flattened text content wrapped first in italics
then in parentheses. -/
theorem getText_matches_annotatedTextSpec (frags : List Frag)
    (h : frags.all recognizedFrag) :
    getTextFromIrregularString frags = .ok (annotatedTextSpec frags) := by
  unfold getTextFromIrregularString
  simpa using getText_go_ok frags "" h

/-- Witness for C3: on the fragment sequence of the round-trip example the
output is Hallo followed by the parenthesized italicized Welt. -/
theorem getText_matches_annotatedTextSpec_witness :
    halloWeltFrags.all recognizedFrag = true ∧
    getTextFromIrregularString halloWeltFrags = .ok "Hallo (*Welt*)" :=
  ⟨rfl, (getText_matches_annotatedTextSpec halloWeltFrags rfl).trans rfl⟩

/-- C6: a fragment sequence containing a fragment of an unrecognized kind
makes get_text_from_irregular_string fail with CouldNotGetText, whose
message names the fragment and its observed type; no partial result is
returned. -/
theorem getText_unrecognized_fails (frags : List Frag)
    (h : frags.any (fun f => !recognizedFrag f)) :
    ∃ descr ty, Frag.other descr ty ∈ frags ∧
      getTextFromIrregularString frags =
        .error (.couldNotGetText ("No method to extract text from " ++ descr ++
          " of type " ++ ty ++ " to string")) := by
  unfold getTextFromIrregularString
  exact getText_go_err frags "" h

/-- Witness for C6: a sequence holding an HTML comment node fails with the
CouldNotGetText message naming it. -/
theorem getText_unrecognized_fails_witness :
    ∃ descr ty, Frag.other descr ty ∈ cexBadFrags ∧
      getTextFromIrregularString cexBadFrags =
        .error (.couldNotGetText ("No method to extract text from " ++ descr ++
          " of type " ++ ty ++ " to string")) :=
  getText_unrecognized_fails cexBadFrags rfl

/-- C2: get_word_metadata discards the first fragment and maps each class
label to the flattened text content of the first remaining tagged fragment
carrying that label: every lookup into the returned dict equals the first
matching entry among the tagged-element pairs of the tail, so later
duplicates are ignored. -/
theorem getWordMetadata_first_write_wins (frags : List Frag)
    (m : List (Option String × String)) (k : Option String)
    (h : getWordMetadata frags = .ok m) :
    lookupA m k =
      ((elemPairs (frags.drop 1)).find? (fun p => p.1 = k)).map (fun p => p.2) := by
  unfold getWordMetadata at h
  have h2 := getWordMetadata_go_lookup (frags.drop 1) [] m k h
  simpa [lookupA, firstSome] using h2

/-- Witness for C2: with two phon elements of different text after the
headword, the dict holds the first text and the lookup returns it. -/
theorem getWordMetadata_first_write_wins_witness :
    getWordMetadata cexMetaFrags = .ok [(some "phon", "A")] ∧
    lookupA [(some "phon", "A")] (some "phon") = some "A" :=
  ⟨rfl, (getWordMetadata_first_write_wins cexMetaFrags [(some "phon", "A")]
    (some "phon") rfl).trans rfl⟩

/-- C7: the gender-to-article table maps nt to das, m to der and f to die;
an absent gender or any value outside the table yields the empty article,
and in that case prepare_comment succeeds and renders the bolded word with
no leading article. -/
theorem prepareComment_gender_article :
    articleFor (some "nt") = "das" ∧
    articleFor (some "m") = "der" ∧
    articleFor (some "f") = "die" ∧
    articleFor none = "" ∧
    (∀ g : String, g ≠ "nt" → g ≠ "m" → g ≠ "f" → articleFor (some g) = "") ∧
    (∀ (r : SearchResult) (wt tr : String), r.word_type = some wt →
      r.translation = some tr → articleFor r.gender = "" →
      prepareComment r = .ok (COMMENT_TEMPLATE (bold r.word)
        ((lookupA r.metadata (some "phonetics")).getD "") (italics (pyTitle wt)) r.word tr
        (script (formatLink "PONS-reference" (SEARCH_URL r.word))))) := by
  refine ⟨rfl, rfl, rfl, rfl, ?_, ?_⟩
  · intro g h1 h2 h3
    simp only [articleFor, LETTER_TO_ARTICLE_MAPPER, Option.getD_some]
    rw [List.find?_cons, decide_eq_false (fun h => h1 h.symm),
        List.find?_cons, decide_eq_false (fun h => h2 h.symm),
        List.find?_cons, decide_eq_false (fun h => h3 h.symm)]
    rfl
  · intro r wt tr hwt htr hart
    simp [prepareComment, hwt, htr, hart, italics_ne_empty]

/-- Witness for C7: a noun of unmapped gender pl gets the empty article
and a comment whose bolded head is the bare word. -/
theorem prepareComment_gender_article_witness :
    articleFor (some "pl") = "" ∧
    prepareComment ⟨"Leute", some "noun", [], some "pl", some "people", none⟩ =
      .ok (COMMENT_TEMPLATE (bold "Leute") "" (italics (pyTitle "noun")) "Leute" "people"
        (script (formatLink "PONS-reference" (SEARCH_URL "Leute")))) := by
  have h := prepareComment_gender_article
  refine ⟨h.2.2.2.2.1 "pl" (by decide) (by decide) (by decide), ?_⟩
  exact h.2.2.2.2.2 ⟨"Leute", some "noun", [], some "pl", some "people", none⟩
    "noun" "people" rfl rfl (h.2.2.2.2.1 "pl" (by decide) (by decide) (by decide))

/-- C10: when search_word reaches the gender step of a noun entry whose
extracted metadata has no genus label, it fails with KeyError at the
direct keyed access instead of omitting the gender; for every non-noun
word class the gender expression is None without touching the metadata, so
the access cannot fail. -/
theorem searchWord_genus_keyerror
    (api : String → PonsResponse) (sWord : String) (result : ApiResult) (hit : Hit)
    (definition : Rom) (md : List (Option String × String))
    (h1 : ponsSearch (api sWord) = .ok result)
    (h2 : result.hits.head? = some hit)
    (h3 : hit.type = "entry")
    (h4 : hit.roms.head? = some definition)
    (h5 : definition.wordclass = some "noun")
    (h6 : getWordMetadata definition.headword_full = .ok md)
    (h7 : lookupA md (some "genus") = none) :
    searchWord api sWord = .error (.keyError "genus") ∧
    (∀ (wc : Option String) (md2 : List (Option String × String)),
      wc ≠ some "noun" → genderOf wc md2 = .ok none) := by
  constructor
  · simp [searchWord, genderOf, h1, h2, h3, h4, h5, h6, h7]
  · intro wc md2 hne
    simp [genderOf, hne]

/-- Witness for C10: a noun entry whose headword block holds no genus
element makes search_word fail with KeyError genus. -/
theorem searchWord_genus_keyerror_witness :
    searchWord c10Api "Haus" = .error (.keyError "genus") :=
  (searchWord_genus_keyerror c10Api "Haus"
    ⟨[⟨"entry", [⟨"Haus", some "noun", [.text "Haus"], []⟩]⟩]⟩
    ⟨"entry", [⟨"Haus", some "noun", [.text "Haus"], []⟩]⟩
    ⟨"Haus", some "noun", [.text "Haus"], []⟩
    [] rfl rfl rfl rfl rfl rfl rfl).1

/-- C8: a successful response whose first hit is not an entry makes the
run on that unvisited post abort with TranslationException and leaves the
state unchanged: no reply is submitted and no ledger row is written. -/
theorem scanPosts_translation_no_write
    (api : String → PonsResponse) (subreddit : String) (now : Nat) (s : BotState)
    (post : Post) (word : String) (result : ApiResult) (hit : Hit)
    (hv : visited_db s.ledger post.id = false)
    (hw : getWordToSearch post = .ok word)
    (hr : ponsSearch (api word) = .ok result)
    (hh : result.hits.head? = some hit)
    (ht : hit.type ≠ "entry") :
    scanPosts api subreddit now s [post] =
      .error (.translationException "Translations are not yet supported", s) := by
  have hsw : searchWord api word =
      .error (.translationException "Translations are not yet supported") := by
    simp [searchWord, hr, hh, ht]
  simp [scanPosts, hv, processPost, hw, hsw]

/-- Witness for C8: a machine-translation first hit aborts the post with
TranslationException and the empty state is unchanged. -/
theorem scanPosts_translation_no_write_witness :
    scanPosts c8Api "Sprache" 0 ⟨[], []⟩ [c8Post] =
      .error (.translationException "Translations are not yet supported", ⟨[], []⟩) :=
  scanPosts_translation_no_write c8Api "Sprache" 0 ⟨[], []⟩ c8Post "Gehen"
    ⟨[⟨"translation", []⟩]⟩ ⟨"translation", []⟩ rfl rfl rfl rfl (by decide)

/-- Counterexample for C5: scan_posts catches no exception, so with a
first post whose lookup fails the run aborts with DeutscherBotException
and the second post — which processed alone would receive exactly one
reply — is never processed at all. -/
theorem scanPosts_halts_on_failure_cex :
    scanPosts cexApi "Sprache" 0 ⟨[], []⟩ [cexPostFail, cexPostOk] =
      .error (.deutscherBotException "Error searching Wort", ⟨[], []⟩) ∧
    ∃ s1, scanPosts cexApi "Sprache" 0 ⟨[], []⟩ [cexPostOk] = .ok s1 ∧
      repliesTo s1 cexPostOk.id = 1 :=
  ⟨rfl, ⟨_, rfl, rfl⟩⟩

/-- C5 amended: a failure while processing an unvisited post propagates
out of scan_posts with the state at the failure; the remaining posts of
the batch are not visited. -/
theorem scanPosts_error_propagates
    (api : String → PonsResponse) (subreddit : String) (now : Nat) (s s1 : BotState)
    (post : Post) (rest : List Post) (e : Err)
    (hv : visited_db s.ledger post.id = false)
    (hp : processPost api subreddit now s post = .error (e, s1)) :
    scanPosts api subreddit now s (post :: rest) = .error (e, s1) := by
  simp [scanPosts, hv, hp]

/-- Witness for the amended C5: the failing first post aborts the batch
before the second post is reached. -/
theorem scanPosts_error_propagates_witness :
    scanPosts cexApi "Sprache" 0 ⟨[], []⟩ [cexPostFail, cexPostOk] =
      .error (.deutscherBotException "Error searching Wort", ⟨[], []⟩) :=
  scanPosts_error_propagates cexApi "Sprache" 0 ⟨[], []⟩ ⟨[], []⟩ cexPostFail [cexPostOk]
    (.deutscherBotException "Error searching Wort") rfl rfl

/-- C1: a visited post is skipped without replying, and running the
pipeline twice on the same post from any state submits at most one new
reply to it — the first successful pass appends a ledger row bearing the
post identifier, which the membership check of the second pass detects. -/
theorem scanPosts_at_most_one_reply :
    (∀ (api : String → PonsResponse) (subreddit : String) (now : Nat) (s : BotState)
      (post : Post), visited_db s.ledger post.id = true →
      scanPosts api subreddit now s [post] = .ok s) ∧
    (∀ (api : String → PonsResponse) (subreddit : String) (now : Nat) (s : BotState)
      (post : Post),
      repliesTo (finalState (scanPosts api subreddit now
          (finalState (scanPosts api subreddit now s [post])) [post])) post.id ≤
        repliesTo s post.id + 1) := by
  constructor
  · intro api subreddit now s post hv
    simp [scanPosts, hv]
  · intro api subreddit now s post
    cases hv : visited_db s.ledger post.id with
    | true =>
      have h1 : scanPosts api subreddit now s [post] = .ok s := by simp [scanPosts, hv]
      rw [h1]
      simp only [finalState]
      rw [h1]
      simp only [finalState]
      exact Nat.le_succ_of_le (Nat.le_refl _)
    | false =>
      rcases processPost_cases api subreddit now s post with ⟨e, hp⟩ | ⟨body, row, hrow, hp⟩
      · have h1 : scanPosts api subreddit now s [post] = .error (e, s) := by
          simp [scanPosts, hv, hp]
        rw [h1]
        simp only [finalState]
        rw [h1]
        simp only [finalState]
        exact Nat.le_succ_of_le (Nat.le_refl _)
      · have h1 : scanPosts api subreddit now s [post] =
            .ok ⟨s.ledger ++ [row], s.replies ++ [⟨post.id, body⟩]⟩ := by
          simp [scanPosts, hv, hp]
        rw [h1]
        simp only [finalState]
        have hv2 : visited_db (s.ledger ++ [row]) post.id = true := by
          rw [visited_db_eq_any]
          simp [List.any_append, hrow]
        have h2 : scanPosts api subreddit now
            ⟨s.ledger ++ [row], s.replies ++ [⟨post.id, body⟩]⟩ [post] =
            .ok ⟨s.ledger ++ [row], s.replies ++ [⟨post.id, body⟩]⟩ := by
          simp [scanPosts, hv2]
        rw [h2]
        simp only [finalState]
        simp [repliesTo, List.filter_append]

/-- Witness for C1: a post already recorded in the ledger is skipped and
the state is returned unchanged. -/
theorem scanPosts_at_most_one_reply_witness :
    visited_db [cexRowP2] "p2" = true ∧
    scanPosts cexApi "Sprache" 0 ⟨[cexRowP2], []⟩ [cexPostOk] = .ok ⟨[cexRowP2], []⟩ :=
  ⟨rfl, scanPosts_at_most_one_reply.1 cexApi "Sprache" 0 ⟨[cexRowP2], []⟩ cexPostOk rfl⟩

end DBot
